import Mathlib

/-!
Shallow embedding of the block-device bridge and session layer of the
fatfs-embedded crate (src/lib.rs, src/fatfs/diskio.rs,
src/fatfs/diskio/diskio_bindings.rs).  Machine integers (u8/u16/u32) are
modelled as naturals, with explicit `% 2^32` where the Rust arithmetic can
wrap.  In-place mutation through `&mut` references is modelled by returning
the updated value, and a Rust `panic!` (or `.unwrap()` on a failed
conversion) is modelled as `Option.none`.
-/

deriving instance DecidableEq for Except

namespace FatfsEmbedded

/-! Constants from src/fatfs/diskio/diskio_bindings.rs. -/

def STA_NOINIT : Nat := 0x01

def STA_NODISK : Nat := 0x02

def STA_PROTECT : Nat := 0x04

def SECTOR_SIZE : Nat := 512

def DRESULT_RES_OK : Nat := 0

def DRESULT_RES_ERROR : Nat := 1

def DRESULT_RES_WRPRT : Nat := 2

def DRESULT_RES_NOTRDY : Nat := 3

def DRESULT_RES_PARERR : Nat := 4

def CTRL_SYNC : Nat := 0

def GET_SECTOR_COUNT : Nat := 1

def GET_SECTOR_SIZE : Nat := 2

def GET_BLOCK_SIZE : Nat := 3

def CTRL_TRIM : Nat := 4

/-- IoctlCommand from src/fatfs/diskio.rs: the tagged ioctl request/response.
The DWORD and WORD payloads are modelled as naturals. -/
inductive IoctlCommand where
  | CtrlSync : Unit → IoctlCommand
  | GetSectorCount : Nat → IoctlCommand
  | GetSectorSize : Nat → IoctlCommand
  | GetBlockSize : Nat → IoctlCommand
  deriving DecidableEq, Repr

/-- DiskResult from src/fatfs/diskio.rs. -/
inductive DiskResult where
  | Ok
  | Error
  | WriteProtected
  | NotReady
  | ParameterError
  deriving DecidableEq, Repr

/-- Numeric discriminants of DiskResult (the `as DRESULT` casts). -/
def DiskResult.toDRESULT : DiskResult → Nat
  | .Ok => DRESULT_RES_OK
  | .Error => DRESULT_RES_ERROR
  | .WriteProtected => DRESULT_RES_WRPRT
  | .NotReady => DRESULT_RES_NOTRDY
  | .ParameterError => DRESULT_RES_PARERR

/-- The projections of a chrono NaiveDateTime that the code reads: calendar
year (e.g. 2024), month 1..12, day 1..31, hour, minute, second, each already
cast to u32 as in the source. -/
structure Timestamp where
  year : Nat
  month : Nat
  day : Nat
  hour : Nat
  minute : Nat
  second : Nat
  deriving DecidableEq, Repr

/-- FatFsDriver trait from src/fatfs/diskio.rs.  Mutation of the `&mut`
buffer in disk_read and of the `&mut IoctlCommand` in disk_ioctl is modelled
by returning the updated value next to the DiskResult. -/
structure FatFsDriver where
  disk_status : Nat → Nat
  disk_initialize : Nat → Nat
  disk_read : Nat → List Nat → Nat → List Nat × DiskResult
  disk_write : Nat → List Nat → Nat → DiskResult
  disk_ioctl : IoctlCommand → IoctlCommand × DiskResult
  get_fattime : Timestamp

/-- The DRIVER registry slot (src/fatfs/diskio.rs) holds `Option<Box<dyn
FatFsDriver>>`; `install` performs `Option::replace`, which stores the new
driver and hands back the previous occupant (which Rust then drops).  The
result is (new slot contents, dropped previous driver). -/
def install (slot : Option FatFsDriver) (driver : FatFsDriver) :
    Option FatFsDriver × Option FatFsDriver :=
  (some driver, slot)

/-- disk_status bridge entry point (diskio_bindings.rs). -/
def disk_status (slot : Option FatFsDriver) (pdrv : Nat) : Nat :=
  match slot with
  | some driver => driver.disk_status pdrv
  | none => STA_NOINIT

/-- disk_initialize bridge entry point (diskio_bindings.rs). -/
def disk_initialize (slot : Option FatFsDriver) (pdrv : Nat) : Nat :=
  match slot with
  | some driver => driver.disk_initialize pdrv
  | none => STA_NOINIT

/-- The slice the bridge constructs from the engine's raw pointer:
`slice_from_raw_parts(_mut)(buff, (count as usize) * SECTOR_SIZE)`.  Raw
memory behind the pointer is modelled as a byte function `Nat → Nat`; the
constructed slice is its first `count * SECTOR_SIZE` bytes. -/
def rawSlice (mem : Nat → Nat) (count : Nat) : List Nat :=
  (List.range (count * SECTOR_SIZE)).map mem

/-- disk_read bridge entry point (diskio_bindings.rs): builds the checked
slice and forwards to the installed driver, returning the driver's result
cast to DRESULT; with an empty slot it returns RES_ERROR. -/
def disk_read (slot : Option FatFsDriver) (pdrv : Nat) (mem : Nat → Nat)
    (sector : Nat) (count : Nat) : Nat :=
  match slot with
  | some driver => ((driver.disk_read pdrv (rawSlice mem count) sector).2).toDRESULT
  | none => DRESULT_RES_ERROR

/-- disk_write bridge entry point (diskio_bindings.rs). -/
def disk_write (slot : Option FatFsDriver) (pdrv : Nat) (mem : Nat → Nat)
    (sector : Nat) (count : Nat) : Nat :=
  match slot with
  | some driver => (driver.disk_write pdrv (rawSlice mem count) sector).toDRESULT
  | none => DRESULT_RES_ERROR

/-- The `match cmd` at the top of disk_ioctl that builds the zero-initialized
typed command; `none` models the `panic!` arms for CTRL_TRIM and for any
unrecognized opcode. -/
def initIoctlData (cmd : Nat) : Option IoctlCommand :=
  if cmd = CTRL_SYNC then some (.CtrlSync ())
  else if cmd = GET_SECTOR_COUNT then some (.GetSectorCount 0)
  else if cmd = GET_SECTOR_SIZE then some (.GetSectorSize 0)
  else if cmd = GET_BLOCK_SIZE then some (.GetBlockSize 0)
  else none

/-- The `match data` after the driver call in disk_ioctl: how many bytes are
copied into the engine's output buffer for each returned variant. -/
def ioctlCopyWidth : IoctlCommand → Nat
  | .GetBlockSize _ => 4
  | .GetSectorSize _ => 2
  | .GetSectorCount _ => 4
  | _ => 0

/-- Observable outcome of one disk_ioctl bridge call: the DRESULT returned to
the engine, the number of bytes copied into the engine's output buffer, and
(instrumentation) whether the installed driver's disk_ioctl was invoked. -/
structure IoctlOutcome where
  res : Nat
  bytesCopied : Nat
  driverCalled : Bool
  deriving DecidableEq, Repr

/-- disk_ioctl bridge entry point (diskio_bindings.rs).  `none` models the
`panic!` on an unsupported opcode; note that the driver's own DiskResult is
discarded and DRESULT_RES_OK is returned whenever a driver is installed and
the opcode is supported. -/
def disk_ioctl (slot : Option FatFsDriver) (cmd : Nat) : Option IoctlOutcome :=
  match slot with
  | some driver =>
    match initIoctlData cmd with
    | some data =>
      let data2 := (driver.disk_ioctl data).1
      some ⟨DRESULT_RES_OK, ioctlCopyWidth data2, true⟩
    | none => none
  | none => some ⟨DRESULT_RES_ERROR, 0, false⟩

/-- The u32 bit-packing in get_fattime (diskio_bindings.rs):
`(year - 80) << 25 | month << 21 | day << 16 | hour << 11 | minute << 5 |
second << 1`, all in u32 arithmetic (each shifted term wraps mod 2^32). -/
def get_fattime_pack (t : Timestamp) : Nat :=
  Nat.lor (Nat.lor (Nat.lor (Nat.lor (Nat.lor
    (((t.year - 80) * 2 ^ 25) % 2 ^ 32)
    ((t.month * 2 ^ 21) % 2 ^ 32))
    ((t.day * 2 ^ 16) % 2 ^ 32))
    ((t.hour * 2 ^ 11) % 2 ^ 32))
    ((t.minute * 2 ^ 5) % 2 ^ 32))
    ((t.second * 2) % 2 ^ 32)

/-- get_fattime bridge entry point (diskio_bindings.rs, `chrono` feature):
packs the installed driver's timestamp, or returns 0 with an empty slot. -/
def get_fattime (slot : Option FatFsDriver) : Nat :=
  match slot with
  | some driver => get_fattime_pack driver.get_fattime
  | none => 0

/-- Modelled from the spec: the FRESULT numeric result codes of the external
FatFs R0.15 engine.  The repository binds them in src/fatfs/inc_bindings.rs,
which build.rs generates from fatfs/source/ff.h (neither is under src/); the
engine's documented FRESULT enumeration assigns the codes 0..19 in the order
listed in the spec's Error Taxonomy (disk error, internal error, not-ready,
..., invalid parameter), with 0 for success.  The twenty constants below
follow that enumeration. -/
def FRESULT_FR_OK : Nat := 0

def FRESULT_FR_DISK_ERR : Nat := 1

def FRESULT_FR_INT_ERR : Nat := 2

def FRESULT_FR_NOT_READY : Nat := 3

def FRESULT_FR_NO_FILE : Nat := 4

def FRESULT_FR_NO_PATH : Nat := 5

def FRESULT_FR_INVALID_NAME : Nat := 6

def FRESULT_FR_DENIED : Nat := 7

def FRESULT_FR_EXIST : Nat := 8

def FRESULT_FR_INVALID_OBJECT : Nat := 9

def FRESULT_FR_WRITE_PROTECTED : Nat := 10

def FRESULT_FR_INVALID_DRIVE : Nat := 11

def FRESULT_FR_NOT_ENABLED : Nat := 12

def FRESULT_FR_NO_FILESYSTEM : Nat := 13

def FRESULT_FR_MKFS_ABORTED : Nat := 14

def FRESULT_FR_TIMEOUT : Nat := 15

def FRESULT_FR_LOCKED : Nat := 16

def FRESULT_FR_NOT_ENOUGH_CORE : Nat := 17

def FRESULT_FR_TOO_MANY_OPEN_FILES : Nat := 18

def FRESULT_FR_INVALID_PARAMETER : Nat := 19

/-- Error enumeration from src/lib.rs, whose discriminants are set to the
engine's FRESULT codes. -/
inductive Error where
  | DiskError
  | IntError
  | NotReady
  | NoFile
  | NoPath
  | InvalidName
  | Denied
  | Exists
  | InvalidObject
  | WriteProtected
  | InvalidDrive
  | NotEnabled
  | NoFileSystem
  | MkfsAborted
  | Timeout
  | Locked
  | NotEnoughCore
  | TooManyOpenFiles
  | InvalidParameter
  deriving DecidableEq, Repr, Fintype

/-- Numeric discriminant of each Error variant (the `as u32` / `as isize`
casts in src/lib.rs). -/
def Error.code : Error → Nat
  | .DiskError => FRESULT_FR_DISK_ERR
  | .IntError => FRESULT_FR_INT_ERR
  | .NotReady => FRESULT_FR_NOT_READY
  | .NoFile => FRESULT_FR_NO_FILE
  | .NoPath => FRESULT_FR_NO_PATH
  | .InvalidName => FRESULT_FR_INVALID_NAME
  | .Denied => FRESULT_FR_DENIED
  | .Exists => FRESULT_FR_EXIST
  | .InvalidObject => FRESULT_FR_INVALID_OBJECT
  | .WriteProtected => FRESULT_FR_WRITE_PROTECTED
  | .InvalidDrive => FRESULT_FR_INVALID_DRIVE
  | .NotEnabled => FRESULT_FR_NOT_ENABLED
  | .NoFileSystem => FRESULT_FR_NO_FILESYSTEM
  | .MkfsAborted => FRESULT_FR_MKFS_ABORTED
  | .Timeout => FRESULT_FR_TIMEOUT
  | .Locked => FRESULT_FR_LOCKED
  | .NotEnoughCore => FRESULT_FR_NOT_ENOUGH_CORE
  | .TooManyOpenFiles => FRESULT_FR_TOO_MANY_OPEN_FILES
  | .InvalidParameter => FRESULT_FR_INVALID_PARAMETER

/-- TryFrom u32 for Error from src/lib.rs: the guard-pattern chain comparing
the raw value against each variant's discriminant in source order; `none`
models the `Err(())` fall-through arm. -/
def Error.tryFrom (v : Nat) : Option Error :=
  if v = Error.DiskError.code then some .DiskError
  else if v = Error.IntError.code then some .IntError
  else if v = Error.NotReady.code then some .NotReady
  else if v = Error.NoFile.code then some .NoFile
  else if v = Error.NoPath.code then some .NoPath
  else if v = Error.InvalidName.code then some .InvalidName
  else if v = Error.Denied.code then some .Denied
  else if v = Error.Exists.code then some .Exists
  else if v = Error.InvalidObject.code then some .InvalidObject
  else if v = Error.WriteProtected.code then some .WriteProtected
  else if v = Error.InvalidDrive.code then some .InvalidDrive
  else if v = Error.NotEnabled.code then some .NotEnabled
  else if v = Error.NoFileSystem.code then some .NoFileSystem
  else if v = Error.MkfsAborted.code then some .MkfsAborted
  else if v = Error.Timeout.code then some .Timeout
  else if v = Error.Locked.code then some .Locked
  else if v = Error.NotEnoughCore.code then some .NotEnoughCore
  else if v = Error.TooManyOpenFiles.code then some .TooManyOpenFiles
  else if v = Error.InvalidParameter.code then some .InvalidParameter
  else none

/-- The result-marshalling pattern shared verbatim by the RawFileSystem
operations in src/lib.rs that receive a raw FRESULT (open, close, read,
write, seek, truncate, sync, opendir, closedir, readdir, findfirst,
findnext, mkdir, unlink, rename, stat, chmod, utime, chdir, chdrive, getcwd,
getfree, setlabel, expand, mount, mkfs, setcp, unmount, and the tail of
getlabel): `if result == FRESULT_FR_OK { Ok(..) } else
{ Err(Error::try_from(result).unwrap()) }`.  `none` models the `.unwrap()`
panic on a code outside the taxonomy. -/
def fresultToResult (r : Nat) : Option (Except Error Unit) :=
  if r = FRESULT_FR_OK then some (.ok ())
  else
    match Error.tryFrom r with
    | some e => some (.error e)
    | none => none

/-- Observable outcome of one RawFileSystem.getlabel call: the returned
value (`none` models the `.unwrap()` panic) and (instrumentation) whether
the engine's f_getlabel was invoked. -/
structure LabelOutcome where
  res : Option (Except Error Nat)
  engineCalled : Bool
  deriving DecidableEq, Repr

/-- RawFileSystem.getlabel from src/lib.rs.  The engine is an oracle
supplying the raw FRESULT and the volume serial number `vsn` that
f_getlabel would produce; `capacity` is the supplied String buffer's
capacity.  Buffers under 34 bytes are rejected with InvalidParameter before
the engine is called. -/
def getlabel (capacity : Nat) (engineResult : Nat) (vsn : Nat) : LabelOutcome :=
  if capacity < 34 then ⟨some (.error .InvalidParameter), false⟩
  else if engineResult = FRESULT_FR_OK then ⟨some (.ok vsn), true⟩
  else
    match Error.tryFrom engineResult with
    | some e => ⟨some (.error e), true⟩
    | none => ⟨none, true⟩

/-- The fdate packing in RawFileSystem.utime (src/lib.rs):
`(((year - 1980) * 512) | month * 32 | day) as u16`, computed in u32 and
cast to u16. -/
def utime_fdate (t : Timestamp) : Nat :=
  (Nat.lor (Nat.lor (((t.year - 1980) * 512) % 2 ^ 32)
    ((t.month * 32) % 2 ^ 32)) t.day) % 2 ^ 16

/-- The ftime packing in RawFileSystem.utime (src/lib.rs):
`(hour * 2048 | minute * 32 | second / 2) as u16`. -/
def utime_ftime (t : Timestamp) : Nat :=
  (Nat.lor (Nat.lor ((t.hour * 2048) % 2 ^ 32)
    ((t.minute * 32) % 2 ^ 32)) (t.second / 2)) % 2 ^ 16

/-- Year field of a packed 16-bit FAT date word: bits 9 and up. -/
def fdateYearField (d : Nat) : Nat := d / 512

/-- Year field of a packed 32-bit FAT timestamp DWORD: bits 25 and up. -/
def fattimeYearField (w : Nat) : Nat := w / 2 ^ 25

/-- Concrete driver used as test data: its disk_ioctl echoes the command it
was given (populating no geometry), everything succeeds. -/
def idDriver : FatFsDriver where
  disk_status := fun _ => 0
  disk_initialize := fun _ => 0
  disk_read := fun _ buffer _ => (buffer, .Ok)
  disk_write := fun _ _ _ => .Ok
  disk_ioctl := fun c => (c, .Ok)
  get_fattime := ⟨2024, 1, 1, 0, 0, 0⟩

/-- Concrete driver used as test data: its disk_ioctl reports NotReady while
leaving the command untouched. -/
def notReadyDriver : FatFsDriver where
  disk_status := fun _ => 0
  disk_initialize := fun _ => 0
  disk_read := fun _ buffer _ => (buffer, .Ok)
  disk_write := fun _ _ _ => .Ok
  disk_ioctl := fun c => (c, .NotReady)
  get_fattime := ⟨2024, 1, 1, 0, 0, 0⟩

/-! Theorems about the claims. -/

/-- C1: for every call to the bridge entry points disk_read and disk_write
with sector count `count`, the byte slice handed to the installed driver has
length exactly `count * SECTOR_SIZE` (512 bytes per sector) — never more,
never less. -/
theorem bridge_slice_length_exact (mem : Nat → Nat) (count : Nat)
    (driver : FatFsDriver) (pdrv sector : Nat) :
    SECTOR_SIZE = 512 ∧
    (rawSlice mem count).length = count * SECTOR_SIZE ∧
    disk_read (some driver) pdrv mem sector count
      = ((driver.disk_read pdrv (rawSlice mem count) sector).2).toDRESULT ∧
    disk_write (some driver) pdrv mem sector count
      = (driver.disk_write pdrv (rawSlice mem count) sector).toDRESULT :=
  ⟨rfl, by simp [rawSlice], rfl, rfl⟩

/-- C2: for each recognized ioctl command serviced by a driver that
populates the variant it was handed, the bridge copies exactly the byte
width the tag implies into the engine's output buffer — 4 bytes for
GetSectorCount, 2 for GetSectorSize, 4 for GetBlockSize — and for a
CtrlSync command it writes nothing. -/
theorem ioctl_copy_widths (driver : FatFsDriver)
    (hsync : ∃ u, (driver.disk_ioctl (IoctlCommand.CtrlSync ())).1
      = IoctlCommand.CtrlSync u)
    (hcount : ∃ v, (driver.disk_ioctl (IoctlCommand.GetSectorCount 0)).1
      = IoctlCommand.GetSectorCount v)
    (hsize : ∃ v, (driver.disk_ioctl (IoctlCommand.GetSectorSize 0)).1
      = IoctlCommand.GetSectorSize v)
    (hblock : ∃ v, (driver.disk_ioctl (IoctlCommand.GetBlockSize 0)).1
      = IoctlCommand.GetBlockSize v) :
    disk_ioctl (some driver) GET_SECTOR_COUNT = some ⟨DRESULT_RES_OK, 4, true⟩ ∧
    disk_ioctl (some driver) GET_SECTOR_SIZE = some ⟨DRESULT_RES_OK, 2, true⟩ ∧
    disk_ioctl (some driver) GET_BLOCK_SIZE = some ⟨DRESULT_RES_OK, 4, true⟩ ∧
    disk_ioctl (some driver) CTRL_SYNC = some ⟨DRESULT_RES_OK, 0, true⟩ := by
  obtain ⟨u, hu⟩ := hsync
  obtain ⟨v1, h1⟩ := hcount
  obtain ⟨v2, h2⟩ := hsize
  obtain ⟨v3, h3⟩ := hblock
  refine ⟨?_, ?_, ?_, ?_⟩
  · have h : disk_ioctl (some driver) GET_SECTOR_COUNT
        = some ⟨DRESULT_RES_OK,
            ioctlCopyWidth (driver.disk_ioctl (IoctlCommand.GetSectorCount 0)).1,
            true⟩ := rfl
    rw [h, h1]
    rfl
  · have h : disk_ioctl (some driver) GET_SECTOR_SIZE
        = some ⟨DRESULT_RES_OK,
            ioctlCopyWidth (driver.disk_ioctl (IoctlCommand.GetSectorSize 0)).1,
            true⟩ := rfl
    rw [h, h2]
    rfl
  · have h : disk_ioctl (some driver) GET_BLOCK_SIZE
        = some ⟨DRESULT_RES_OK,
            ioctlCopyWidth (driver.disk_ioctl (IoctlCommand.GetBlockSize 0)).1,
            true⟩ := rfl
    rw [h, h3]
    rfl
  · have h : disk_ioctl (some driver) CTRL_SYNC
        = some ⟨DRESULT_RES_OK,
            ioctlCopyWidth (driver.disk_ioctl (IoctlCommand.CtrlSync ())).1,
            true⟩ := rfl
    rw [h, hu]
    rfl

/-- C2 witness: the echoing driver satisfies the tag-preservation
hypotheses, and on it every recognized command copies its tag's byte
width. -/
theorem ioctl_copy_widths_witness :
    ((∃ u, (idDriver.disk_ioctl (IoctlCommand.CtrlSync ())).1
       = IoctlCommand.CtrlSync u) ∧
     (∃ v, (idDriver.disk_ioctl (IoctlCommand.GetSectorCount 0)).1
       = IoctlCommand.GetSectorCount v) ∧
     (∃ v, (idDriver.disk_ioctl (IoctlCommand.GetSectorSize 0)).1
       = IoctlCommand.GetSectorSize v) ∧
     (∃ v, (idDriver.disk_ioctl (IoctlCommand.GetBlockSize 0)).1
       = IoctlCommand.GetBlockSize v)) ∧
    (disk_ioctl (some idDriver) GET_SECTOR_COUNT = some ⟨DRESULT_RES_OK, 4, true⟩ ∧
     disk_ioctl (some idDriver) GET_SECTOR_SIZE = some ⟨DRESULT_RES_OK, 2, true⟩ ∧
     disk_ioctl (some idDriver) GET_BLOCK_SIZE = some ⟨DRESULT_RES_OK, 4, true⟩ ∧
     disk_ioctl (some idDriver) CTRL_SYNC = some ⟨DRESULT_RES_OK, 0, true⟩) :=
  ⟨⟨⟨(), rfl⟩, ⟨0, rfl⟩, ⟨0, rfl⟩, ⟨0, rfl⟩⟩,
   ioctl_copy_widths idDriver ⟨(), rfl⟩ ⟨0, rfl⟩ ⟨0, rfl⟩ ⟨0, rfl⟩⟩

/-- C3 counterexample: a driver whose disk_ioctl reports NotReady, yet the
bridge's disk_ioctl returns DRESULT_RES_OK to the engine — the driver's
storage-level result is not passed up unchanged. -/
theorem ioctl_result_not_propagated :
    (notReadyDriver.disk_ioctl (IoctlCommand.CtrlSync ())).2 = DiskResult.NotReady ∧
    disk_ioctl (some notReadyDriver) CTRL_SYNC = some ⟨DRESULT_RES_OK, 0, true⟩ ∧
    DRESULT_RES_OK ≠ DiskResult.NotReady.toDRESULT :=
  ⟨rfl, rfl, by decide⟩

/-- C3 amended: disk_read and disk_write return the installed driver's
result value to the engine unchanged (under the identity numeric cast),
while disk_ioctl discards the driver's result and returns DRESULT_RES_OK
for every supported opcode. -/
theorem driver_result_propagation (driver : FatFsDriver)
    (pdrv sector count cmd : Nat) (mem : Nat → Nat) (h : cmd ≤ 3) :
    disk_read (some driver) pdrv mem sector count
      = ((driver.disk_read pdrv (rawSlice mem count) sector).2).toDRESULT ∧
    disk_write (some driver) pdrv mem sector count
      = (driver.disk_write pdrv (rawSlice mem count) sector).toDRESULT ∧
    ∃ o, disk_ioctl (some driver) cmd = some o ∧ o.res = DRESULT_RES_OK := by
  refine ⟨rfl, rfl, ?_⟩
  interval_cases cmd <;> exact ⟨_, rfl, rfl⟩

/-- C3 amended, witness at the NotReady driver and the CTRL_SYNC opcode. -/
theorem driver_result_propagation_witness :
    (0 : Nat) ≤ 3 ∧
    (disk_read (some notReadyDriver) 0 (fun _ => 0) 0 0
       = ((notReadyDriver.disk_read 0 (rawSlice (fun _ => 0) 0) 0).2).toDRESULT ∧
     disk_write (some notReadyDriver) 0 (fun _ => 0) 0 0
       = (notReadyDriver.disk_write 0 (rawSlice (fun _ => 0) 0) 0).toDRESULT ∧
     ∃ o, disk_ioctl (some notReadyDriver) 0 = some o ∧ o.res = DRESULT_RES_OK) :=
  ⟨by decide, driver_result_propagation notReadyDriver 0 0 0 0 (fun _ => 0) (by decide)⟩

/-- C4: before any driver is installed (the registry slot is `none`), every
bridge entry point returns its not-initialized / failure value — without
panicking (no `none` outcome) and without any driver being reachable, so
none is touched. -/
theorem bridge_uninstalled_behavior (pdrv sector count cmd : Nat)
    (mem : Nat → Nat) :
    disk_status none pdrv = STA_NOINIT ∧
    disk_initialize none pdrv = STA_NOINIT ∧
    disk_read none pdrv mem sector count = DRESULT_RES_ERROR ∧
    disk_write none pdrv mem sector count = DRESULT_RES_ERROR ∧
    disk_ioctl none cmd = some ⟨DRESULT_RES_ERROR, 0, false⟩ ∧
    get_fattime none = 0 :=
  ⟨rfl, rfl, rfl, rfl, rfl, rfl⟩

/-- C5: every ioctl opcode outside the four supported commands — including
the trim hint CTRL_TRIM = 4 — is rejected at the bridge boundary with a hard
failure (the `panic!`, modelled `none`) raised while the typed command is
being constructed, before the installed driver's disk_ioctl could be
invoked; the bridge outcome is `none` for every driver alike. -/
theorem ioctl_unsupported_opcode_rejected (driver : FatFsDriver) (cmd : Nat)
    (h : 3 < cmd) :
    initIoctlData cmd = none ∧ disk_ioctl (some driver) cmd = none := by
  have h0 : initIoctlData cmd = none := by
    unfold initIoctlData CTRL_SYNC GET_SECTOR_COUNT GET_SECTOR_SIZE GET_BLOCK_SIZE
    rw [if_neg (by omega), if_neg (by omega), if_neg (by omega), if_neg (by omega)]
  exact ⟨h0, by simp [disk_ioctl, h0]⟩

/-- C5 witness at the trim opcode CTRL_TRIM itself. -/
theorem ioctl_unsupported_opcode_rejected_witness :
    3 < CTRL_TRIM ∧
    (initIoctlData CTRL_TRIM = none ∧ disk_ioctl (some idDriver) CTRL_TRIM = none) :=
  ⟨by decide, ioctl_unsupported_opcode_rejected idDriver CTRL_TRIM (by decide)⟩

/-- C6: install(A) then install(B) leaves exactly B in the registry slot,
with A the occupant handed back for dropping by the second replace; the
`Option` slot holds at most one driver by construction, and every subsequent
bridge entry point dispatches to B — the results mention only B, never A. -/
theorem install_replaces_driver (slot : Option FatFsDriver)
    (a b : FatFsDriver) (pdrv sector count cmd : Nat) (mem : Nat → Nat) :
    (install (install slot a).1 b).1 = some b ∧
    (install (install slot a).1 b).2 = some a ∧
    disk_status (install (install slot a).1 b).1 pdrv = b.disk_status pdrv ∧
    disk_initialize (install (install slot a).1 b).1 pdrv
      = b.disk_initialize pdrv ∧
    disk_read (install (install slot a).1 b).1 pdrv mem sector count
      = ((b.disk_read pdrv (rawSlice mem count) sector).2).toDRESULT ∧
    disk_write (install (install slot a).1 b).1 pdrv mem sector count
      = (b.disk_write pdrv (rawSlice mem count) sector).toDRESULT ∧
    disk_ioctl (install (install slot a).1 b).1 cmd = disk_ioctl (some b) cmd ∧
    get_fattime (install (install slot a).1 b).1 = get_fattime_pack b.get_fattime :=
  ⟨rfl, rfl, rfl, rfl, rfl, rfl, rfl, rfl⟩

/-- C7: a session operation receiving a raw numeric engine result code
returns Ok exactly when the code is FR_OK (0); otherwise it returns the
typed Error variant whose numeric value equals the raw code — no engine
code is silently swallowed or remapped. -/
theorem session_result_marshalling (r : Nat) (h : r < 20) :
    (fresultToResult r = some (.ok ()) ↔ r = FRESULT_FR_OK) ∧
    (r ≠ FRESULT_FR_OK →
      ∃ e, fresultToResult r = some (.error e) ∧ e.code = r) := by
  interval_cases r <;> decide

/-- C7 witness at the raw code 7 (access denied). -/
theorem session_result_marshalling_witness :
    7 < 20 ∧
    ((fresultToResult 7 = some (.ok ()) ↔ 7 = FRESULT_FR_OK) ∧
     (7 ≠ FRESULT_FR_OK →
       ∃ e, fresultToResult 7 = some (.error e) ∧ e.code = 7)) :=
  ⟨by decide, session_result_marshalling 7 (by decide)⟩

/-- Helper: every raw code above 19 falls through the whole guard chain of
Error.tryFrom. -/
theorem tryFrom_none_of_large (v : Nat) (hv : 19 < v) : Error.tryFrom v = none := by
  unfold Error.tryFrom
  rw [if_neg (by simp only [Error.code, FRESULT_FR_DISK_ERR]; omega)]
  rw [if_neg (by simp only [Error.code, FRESULT_FR_INT_ERR]; omega)]
  rw [if_neg (by simp only [Error.code, FRESULT_FR_NOT_READY]; omega)]
  rw [if_neg (by simp only [Error.code, FRESULT_FR_NO_FILE]; omega)]
  rw [if_neg (by simp only [Error.code, FRESULT_FR_NO_PATH]; omega)]
  rw [if_neg (by simp only [Error.code, FRESULT_FR_INVALID_NAME]; omega)]
  rw [if_neg (by simp only [Error.code, FRESULT_FR_DENIED]; omega)]
  rw [if_neg (by simp only [Error.code, FRESULT_FR_EXIST]; omega)]
  rw [if_neg (by simp only [Error.code, FRESULT_FR_INVALID_OBJECT]; omega)]
  rw [if_neg (by simp only [Error.code, FRESULT_FR_WRITE_PROTECTED]; omega)]
  rw [if_neg (by simp only [Error.code, FRESULT_FR_INVALID_DRIVE]; omega)]
  rw [if_neg (by simp only [Error.code, FRESULT_FR_NOT_ENABLED]; omega)]
  rw [if_neg (by simp only [Error.code, FRESULT_FR_NO_FILESYSTEM]; omega)]
  rw [if_neg (by simp only [Error.code, FRESULT_FR_MKFS_ABORTED]; omega)]
  rw [if_neg (by simp only [Error.code, FRESULT_FR_TIMEOUT]; omega)]
  rw [if_neg (by simp only [Error.code, FRESULT_FR_LOCKED]; omega)]
  rw [if_neg (by simp only [Error.code, FRESULT_FR_NOT_ENOUGH_CORE]; omega)]
  rw [if_neg (by simp only [Error.code, FRESULT_FR_TOO_MANY_OPEN_FILES]; omega)]
  rw [if_neg (by simp only [Error.code, FRESULT_FR_INVALID_PARAMETER]; omega)]

/-- C8: for every u32 value v, Error.tryFrom v succeeds with the variant
whose numeric value is v exactly when v is one of the 19 discriminants
(1..19), and returns none for every other value. -/
theorem error_tryFrom_exact (v : Nat) (h : v < 2 ^ 32) :
    ((∃ e, Error.tryFrom v = some e ∧ e.code = v) ↔ 1 ≤ v ∧ v ≤ 19) ∧
    (¬(1 ≤ v ∧ v ≤ 19) → Error.tryFrom v = none) := by
  by_cases hv : v ≤ 19
  · interval_cases v <;> decide
  · have hnone : Error.tryFrom v = none := tryFrom_none_of_large v (by omega)
    refine ⟨⟨fun ⟨e, he, _⟩ => by simp [hnone] at he, fun hc => absurd hc.2 hv⟩,
      fun _ => hnone⟩

/-- C8 witness at the out-of-range code 25. -/
theorem error_tryFrom_exact_witness :
    (25 : Nat) < 2 ^ 32 ∧
    (((∃ e, Error.tryFrom 25 = some e ∧ e.code = 25) ↔ 1 ≤ 25 ∧ (25 : Nat) ≤ 19) ∧
     (¬(1 ≤ 25 ∧ (25 : Nat) ≤ 19) → Error.tryFrom 25 = none)) :=
  ⟨by decide, error_tryFrom_exact 25 (by decide)⟩

/-- C9 counterexample: at the calendar date 2024-01-01 00:00:00 the year
field packed by RawFileSystem.utime (offset 1980) is 44, while the year
field of the DWORD packed by the bridge's get_fattime (offset 80, wrapped
in u32) is 24 — the two call sites do not encode the same year value for
the same input date. -/
theorem timestamp_epoch_mismatch :
    fdateYearField (utime_fdate ⟨2024, 1, 1, 0, 0, 0⟩) = 44 ∧
    fattimeYearField (get_fattime_pack ⟨2024, 1, 1, 0, 0, 0⟩) = 24 ∧
    fdateYearField (utime_fdate ⟨2024, 1, 1, 0, 0, 0⟩)
      ≠ fattimeYearField (get_fattime_pack ⟨2024, 1, 1, 0, 0, 0⟩) := by
  decide

/-- C9 amended: the two call sites subtract different year offsets —
RawFileSystem.utime subtracts 1980 from the calendar year, get_fattime
subtracts only 80 — so over the FAT-representable years 1980..2079 the
utime date field encodes y = year − 1980 while get_fattime encodes
(1900 + y) mod 128. -/
theorem timestamp_epoch_offsets : ∀ y < 100,
    fdateYearField (utime_fdate ⟨1980 + y, 1, 1, 0, 0, 0⟩) = y ∧
    fattimeYearField (get_fattime_pack ⟨1980 + y, 1, 1, 0, 0, 0⟩)
      = (1900 + y) % 128 := by
  decide

/-- C9 amended, witness at the year 2024. -/
theorem timestamp_epoch_offsets_witness :
    44 < 100 ∧
    (fdateYearField (utime_fdate ⟨1980 + 44, 1, 1, 0, 0, 0⟩) = 44 ∧
     fattimeYearField (get_fattime_pack ⟨1980 + 44, 1, 1, 0, 0, 0⟩)
       = (1900 + 44) % 128) :=
  ⟨by decide, timestamp_epoch_offsets 44 (by decide)⟩

/-- C10: getlabel rejects every label buffer of capacity under 34 bytes with
InvalidParameter without invoking the engine's f_getlabel, and passes every
buffer of capacity at least 34 through to the engine. -/
theorem getlabel_capacity_check (capacity engineResult vsn : Nat) :
    (capacity < 34 →
      getlabel capacity engineResult vsn
        = ⟨some (.error .InvalidParameter), false⟩) ∧
    (34 ≤ capacity → (getlabel capacity engineResult vsn).engineCalled = true) := by
  constructor
  · intro h
    simp [getlabel, h]
  · intro h
    unfold getlabel
    rw [if_neg (by omega)]
    split
    · rfl
    · split <;> rfl

/-- C10 witness: capacity 10 is rejected before the engine; capacity 34
reaches the engine. -/
theorem getlabel_capacity_check_witness :
    getlabel 10 FRESULT_FR_OK 7 = ⟨some (.error .InvalidParameter), false⟩ ∧
    (getlabel 34 FRESULT_FR_OK 7).engineCalled = true :=
  ⟨(getlabel_capacity_check 10 FRESULT_FR_OK 7).1 (by decide),
   (getlabel_capacity_check 34 FRESULT_FR_OK 7).2 (by decide)⟩

end FatfsEmbedded
